import Mathlib

/-!
Verification of the utility-bills-processor extraction and validation core.

The definitions below are a shallow embedding of the Python sources:
  * `_common/readers.py`     (`read_pdf`)
  * `_common/bill.py`        (`Bill.extract_fields`, the pattern loop)
  * `_common/dataclass_converters.py` (`ConversionDescriptor.__set__`)
  * `national_grid_gas.py`   (`GasBill`)
  * `water_and_sewer.py`     (`WaterBill`)
  * `cli.py`                 (batch sort key)

Python machine floats are embedded as exact rationals (ℚ); Python `round`
is round-half-to-even (banker's rounding), embedded as `roundHalfEven` /
`round2`.  Python `datetime.date` is embedded as a `CivilDate` with exact
calendar subtraction via the standard days-from-civil conversion.
Fallible Python code (statements that can raise) is embedded as `Except`.
-/

/-- A calendar date, embedding Python `datetime.date` (year, month, day). -/
structure CivilDate where
  year : Int
  month : Int
  day : Int
  deriving DecidableEq, Repr

/-- Number of days since the civil epoch 1970-01-01 (days-from-civil
algorithm); used to embed exact `date` subtraction. -/
def daysFromCivil (dt : CivilDate) : Int :=
  let y : Int := dt.year - (if dt.month ≤ 2 then 1 else 0)
  let era : Int := Int.fdiv y 400
  let yoe : Int := y - era * 400
  let doy : Int :=
    Int.fdiv (153 * (dt.month + (if 2 < dt.month then -3 else 9)) + 2) 5 + dt.day - 1
  let doe : Int := yoe * 365 + Int.fdiv yoe 4 - Int.fdiv yoe 100 + doy
  era * 146097 + doe - 719468

/-- Exact difference of two dates in days, embedding Python
`date1 - date2` yielding a `timedelta` measured in whole days. -/
def dateSubDays (d1 d2 : CivilDate) : Int :=
  daysFromCivil d1 - daysFromCivil d2

/-- Left-pad a natural number with zeros to the given width. -/
def padNat (width : Nat) (n : Nat) : String :=
  let s := toString n
  if s.length < width then String.mk (List.replicate (width - s.length) '0') ++ s else s

/-- ISO-8601 rendering `YYYY-MM-DD`, embedding Python `date.isoformat()`. -/
def isoformat (dt : CivilDate) : String :=
  padNat 4 dt.year.toNat ++ "-" ++ padNat 2 dt.month.toNat ++ "-" ++ padNat 2 dt.day.toNat

/-- Python `round(x)` to an integer: round half to even (banker's
rounding), exactly on rationals. -/
def roundHalfEven (q : Rat) : Int :=
  let f : Int := ⌊q⌋
  let r : Rat := q - (f : Rat)
  if r < 1/2 then f
  else if 1/2 < r then f + 1
  else if f % 2 = 0 then f else f + 1

/-- Python `round(x, 2)`: round half to even at two decimal digits. -/
def round2 (q : Rat) : Rat :=
  (roundHalfEven (q * 100) : Rat) / 100

/-- A Python-level error, as used by the embedded code.  `runtimeError`
and `valueError` and the rest mirror the Python exception classes. -/
inductive PyError where
  | runtimeError (message : String)
  | valueError (message : String)
  | typeError (message : String)
  | attributeError (name : String)
  deriving DecidableEq, Repr

/-- A cell of a CSV row as produced by `to_row()`: Python values are
strings, ints, floats, `date` objects, or `None`. -/
inductive Value where
  | str (s : String)
  | int (n : Int)
  | float (q : Rat)
  | date (d : CivilDate)
  | vnone
  deriving DecidableEq, Repr

/-- Whether a row cell is a string (as opposed to a raw `date` or number). -/
def Value.isStr : Value → Bool
  | .str _ => true
  | _ => false

/-- Render an optional float field for a row, embedding how a
`float | None` dataclass field appears in `to_row()`. -/
def optFloat : Option Rat → Value
  | some q => .float q
  | none => .vnone

/-- Embedding of the `GasBill` dataclass (`national_grid_gas.py`).
Fields whose converter is `_spaced_optional_int` / `_spaced_optional_float`
(default `None`) are embedded as `Option`; the rest carry the converted
type directly. -/
structure GasBill where
  current_method : String
  previous_method : String
  days_since_last_reading : Int
  current_date : CivilDate
  current_meter_reading : Int
  previous_date : CivilDate
  previous_meter_reading : Int
  measured_therms : Option Int
  thermal_factor : Rat
  total_therms : Int
  delivery_min_rate_usd : Option Rat
  delivery_min_charge_usd : Option Rat
  delivery_first_tier_rate_usd : Option Rat
  delivery_off_peak_rate_usd : Option Rat
  delivery_distribution_adjustment_rate_usd : Rat
  delivery_total_usd : Rat
  supply_rate_usd : Rat
  supply_total_usd : Rat
  paperless_bill_credit_usd : Rat
  total_usd : Rat
  deriving DecidableEq, Repr

/-- `GasBill._header` (class variable). -/
def gasHeader : List String :=
  [ "current_date", "days_since_last_reading", "current_meter_reading",
    "previous_meter_reading", "thermal_factor", "total_therms_used",
    "delivery_min_rate_usd", "delivery_first_tier_rate_usd",
    "delivery_distribution_adjustment_rate_usd", "delivery_total_usd",
    "supply_rate_usd", "supply_total_usd", "paperless_bill_credit_usd",
    "total_usd" ]

/-- `GasBill.to_row()`: the date is rendered with `isoformat()`, the other
fields are emitted as raw values. -/
def gasToRow (b : GasBill) : List Value :=
  [ .str (isoformat b.current_date),
    .int b.days_since_last_reading,
    .int b.current_meter_reading,
    .int b.previous_meter_reading,
    .float b.thermal_factor,
    .int b.total_therms,
    optFloat b.delivery_min_rate_usd,
    optFloat b.delivery_first_tier_rate_usd,
    .float b.delivery_distribution_adjustment_rate_usd,
    .float b.delivery_total_usd,
    .float b.supply_rate_usd,
    .float b.supply_total_usd,
    .float b.paperless_bill_credit_usd,
    .float b.total_usd ]

/-- `GasBill.__post_init__`: derive `supply_total_usd` when the extracted
value converted to `0`, keep it otherwise. -/
def gasPostInit (b : GasBill) : GasBill :=
  if b.supply_total_usd = 0 then
    { b with supply_total_usd := round2 ((b.total_therms : Rat) * b.supply_rate_usd) }
  else
    b

/-- The descriptive `ValueError`s raised by `GasBill.validate`, each
carrying the diagnostic values interpolated into its message, plus the
`TypeError` Python raises when `None` reaches the delivery arithmetic. -/
inductive GasError where
  | datesMismatch (current previous : CivilDate) (calculated days : Int)
  | thermsMismatch (current previous : Int) (factor : Rat) (calculated therms : Int)
  | deliveryMismatch (calculated expected : Rat)
  | totalsMismatch (calculated expected : Rat)
  | noneArithmetic
  deriving DecidableEq, Repr

/-- `GasBill.validate`, statement by statement.  The four checks run in
source order and the first failure raises.  When
`delivery_min_rate_usd` or `delivery_first_tier_rate_usd` is `None`, the
third check's arithmetic evaluates `None` in `*` / `+` and Python raises
`TypeError` (embedded as `GasError.noneArithmetic`). -/
def gasValidate (b : GasBill) : Except GasError Unit :=
  let calc1 : Int := dateSubDays b.current_date b.previous_date
  if calc1 ≠ b.days_since_last_reading then
    .error (.datesMismatch b.current_date b.previous_date calc1 b.days_since_last_reading)
  else
    let calc2 : Int :=
      roundHalfEven (((b.current_meter_reading - b.previous_meter_reading : Int) : Rat)
        * b.thermal_factor)
    if calc2 ≠ b.total_therms then
      .error (.thermsMismatch b.current_meter_reading b.previous_meter_reading
        b.thermal_factor calc2 b.total_therms)
    else
      match b.delivery_min_rate_usd with
      | none => .error .noneArithmetic
      | some minRate =>
        match b.delivery_first_tier_rate_usd with
        | none => .error .noneArithmetic
        | some firstTier =>
          let calc3 : Rat :=
            round2 ((b.days_since_last_reading : Rat) * minRate
              + (b.total_therms : Rat)
                * (firstTier + b.delivery_distribution_adjustment_rate_usd))
          if calc3 ≠ b.delivery_total_usd then
            .error (.deliveryMismatch calc3 b.delivery_total_usd)
          else
            let calc4 : Rat :=
              round2 (b.delivery_total_usd + b.supply_total_usd + b.paperless_bill_credit_usd)
            if calc4 ≠ b.total_usd then
              .error (.totalsMismatch calc4 b.total_usd)
            else
              .ok ()

/-- The dates check of `GasBill.validate` passes. -/
def gasDatesOk (b : GasBill) : Bool :=
  dateSubDays b.current_date b.previous_date == b.days_since_last_reading

/-- The meter-reading/therms check of `GasBill.validate` passes. -/
def gasThermsOk (b : GasBill) : Bool :=
  roundHalfEven (((b.current_meter_reading - b.previous_meter_reading : Int) : Rat)
    * b.thermal_factor) == b.total_therms

/-- The validate outcome is the therms-mismatch `ValueError`. -/
def isThermsErr : Except GasError Unit → Bool
  | .error (.thermsMismatch _ _ _ _ _) => true
  | _ => false

/-- The validate outcome is the `TypeError` from `None` arithmetic. -/
def isTypeErr : Except GasError Unit → Bool
  | .error .noneArithmetic => true
  | _ => false

/-- The validate outcome is one of the four descriptive `ValueError`s. -/
def isGasValueErr : Except GasError Unit → Bool
  | .error (.datesMismatch _ _ _ _) => true
  | .error (.thermsMismatch _ _ _ _ _) => true
  | .error (.deliveryMismatch _ _) => true
  | .error (.totalsMismatch _ _) => true
  | _ => false

/-- Embedding of the `WaterBill` dataclass (`water_and_sewer.py`). -/
structure WaterBill where
  usage_type : String
  read_date : CivilDate
  current_meter_reading : Int
  usage : Int
  water_charge : Rat
  sewer_charge : Rat
  past_due : Rat
  interest : Rat
  adjustments : Rat
  total : Rat
  deriving DecidableEq, Repr

/-- `WaterBill._header` (class variable), in source order. -/
def waterHeader : List String :=
  [ "read_date", "reading", "usage_type", "usage", "water_charge_usd",
    "sewer_charge_usd", "past_due_usd", "adjustments_usd", "interest_usd",
    "total_usd" ]

/-- `WaterBill.to_row()`: the fields in source order.  Note the source
returns `self.read_date` itself (a `date` object, not `isoformat()`), and
emits `interest` before `adjustments`. -/
def waterToRow (w : WaterBill) : List Value :=
  [ .date w.read_date,
    .int w.current_meter_reading,
    .str w.usage_type,
    .int w.usage,
    .float w.water_charge,
    .float w.sewer_charge,
    .float w.past_due,
    .float w.interest,
    .float w.adjustments,
    .float w.total ]

/-- Spec-side association of a `WaterBill._header` label with the record
field it names, used to compare `to_header()` against `to_row()`
(round-trip labeling).  This follows the header labels, not the row. -/
def waterFieldForLabel (w : WaterBill) : String → Option Value
  | "read_date" => some (.date w.read_date)
  | "reading" => some (.int w.current_meter_reading)
  | "usage_type" => some (.str w.usage_type)
  | "usage" => some (.int w.usage)
  | "water_charge_usd" => some (.float w.water_charge)
  | "sewer_charge_usd" => some (.float w.sewer_charge)
  | "past_due_usd" => some (.float w.past_due)
  | "adjustments_usd" => some (.float w.adjustments)
  | "interest_usd" => some (.float w.interest)
  | "total_usd" => some (.float w.total)
  | _ => none

/-- The descriptive `ValueError` raised by `WaterBill.validate`, carrying
every value interpolated into its message. -/
inductive WaterError where
  | sumMismatch (water sewer pastDue adjustments interest : Rat)
      (calculated expected : Rat)
  deriving DecidableEq, Repr

/-- `WaterBill.validate`: raise iff `total != round(sum of charges, 2)`. -/
def waterValidate (w : WaterBill) : Except WaterError Unit :=
  let calculated : Rat :=
    round2 (w.water_charge + w.sewer_charge + w.past_due + w.interest + w.adjustments)
  if w.total ≠ calculated then
    .error (.sumMismatch w.water_charge w.sewer_charge w.past_due w.adjustments
      w.interest calculated w.total)
  else
    .ok ()

/-- The water validate outcome is the descriptive `ValueError`. -/
def isWaterErr : Except WaterError Unit → Bool
  | .error _ => true
  | .ok _ => false

/-- The merged named-capture mapping built by `Bill.extract_fields`:
a Python dict from group name to captured text (`None` for a named group
that did not participate in the match), in insertion order. -/
abbrev GroupDict := List (String × Option String)

/-- One compiled regex pattern, embedded abstractly: its source text
(interpolated into error messages) and its `re.search(..., re.DOTALL)`
behaviour, `none` when the pattern has no match in the text and
`match.groupdict()` otherwise. -/
structure BillPattern where
  source : String
  search : String → Option GroupDict

/-- Python `d[k] = v` on an insertion-ordered dict: overwrite in place if
the key is present, append otherwise. -/
def dictInsert : GroupDict → String → Option String → GroupDict
  | [], k, v => [(k, v)]
  | (k₀, v₀) :: rest, k, v =>
    if k₀ = k then (k, v) :: rest else (k₀, v₀) :: dictInsert rest k v

/-- Python `values.update(gd)`: insert every entry of `gd` in order,
last write winning on a colliding key. -/
def dictUpdate (d gd : GroupDict) : GroupDict :=
  gd.foldl (fun acc kv => dictInsert acc kv.1 kv.2) d

/-- Python `d.get(k)`: the value stored at the first (unique) occurrence
of the key.  The outer `Option` is key presence; the inner one is the
captured text or `None`. -/
def dictLookup : GroupDict → String → Option (Option String)
  | [], _ => none
  | (k₀, v₀) :: rest, k => if k₀ = k then some v₀ else dictLookup rest k

/-- The value the LAST occurrence of a key in a raw capture list holds;
for the (unique-keyed) dicts Python produces this agrees with
`dictLookup`, and it is what survives `dictUpdate`. -/
def lastLookup : GroupDict → String → Option (Option String)
  | [], _ => none
  | (k₀, v₀) :: rest, k =>
    (lastLookup rest k).orElse (fun _ => if k₀ = k then some v₀ else none)

/-- The errors the extraction loop raises (both are `RuntimeError` in
Python): a pattern with no match, naming the pattern and carrying the
full searched text, or an empty merged mapping, carrying the text. -/
inductive ExtractError where
  | patternMismatch (pattern text : String)
  | cannotParse (text : String)
  deriving DecidableEq, Repr

/-- The `for pattern in patterns` loop of `Bill.extract_fields`: search
each pattern, raising at the first one with no match, otherwise merging
its `groupdict()` into the accumulator with `values.update`. -/
def runPatterns (text : String) : List BillPattern → GroupDict →
    Except ExtractError GroupDict
  | [], values => .ok values
  | p :: rest, values =>
    match p.search text with
    | none => .error (.patternMismatch p.source text)
    | some gd => runPatterns text rest (dictUpdate values gd)

/-- One step of the merge fold: update the accumulator with a pattern's
captures (the no-match branch is unreachable when the loop completes). -/
def mergeStep (text : String) (acc : GroupDict) (p : BillPattern) : GroupDict :=
  match p.search text with
  | none => acc
  | some gd => dictUpdate acc gd

/-- The merged mapping after all patterns matched. -/
def mergedCaptures (text : String) (ps : List BillPattern) : GroupDict :=
  ps.foldl (mergeStep text) []

/-- What last-write-wins merging should yield for a name: the capture of
the last pattern whose groupdict contains the name (spec-side
characterisation). -/
def lastWrite (text : String) : List BillPattern → String → Option (Option String)
  | [], _ => none
  | p :: rest, n =>
    (lastWrite text rest n).orElse
      (fun _ => (p.search text).bind (fun gd => lastLookup gd n))

/-- Lines 79-93 of `_common/bill.py`: run every pattern, then raise the
generic cannot-parse error if the merged mapping is empty. -/
def extractLoop (text : String) (ps : List BillPattern) :
    Except ExtractError GroupDict :=
  match runPatterns text ps [] with
  | .error e => .error e
  | .ok values =>
    if values.length = 0 then .error (.cannotParse text) else .ok values

/-- A raw Python value as it reaches a `ConversionDescriptor.__set__`:
the captured string (or `None` for a non-participating group), or the
field's declared default (an int, float or `datetime` object). -/
inductive PyVal where
  | str (s : String)
  | int (n : Int)
  | float (q : Rat)
  | datetime (d : CivilDate)
  | pynone
  deriving DecidableEq, Repr

/-- The value of a digit list, `none` unless nonempty and all digits. -/
def digitsVal (cs : List Char) : Option Nat :=
  if cs ≠ [] ∧ cs.all Char.isDigit then
    some (cs.foldl (fun a c => a * 10 + (c.toNat - 48)) 0)
  else
    none

/-- Python `int(s)` on a string: optional sign then digits. -/
def parseIntStr (s : String) : Option Int :=
  match s.data with
  | '-' :: rest => (digitsVal rest).map (fun n => -(n : Int))
  | '+' :: rest => (digitsVal rest).map (fun n => (n : Int))
  | l => (digitsVal l).map (fun n => (n : Int))

/-- Python `float(s)` on the decimal forms occurring in bills:
optional sign, an integer part and/or a fractional part. -/
def parseDecimalStr (s : String) : Option Rat :=
  let parse : List Char → Option Rat := fun body =>
    match body.splitOn '.' with
    | [ip] => (digitsVal ip).map (fun n => (n : Rat))
    | [ip, fp] =>
      if (ip ≠ [] ∨ fp ≠ []) ∧ ip.all Char.isDigit ∧ fp.all Char.isDigit then
        some ((ip.foldl (fun a c => a * 10 + (c.toNat - 48)) 0 : Nat)
          + (fp.foldl (fun a c => a * 10 + (c.toNat - 48)) 0 : Nat)
            / ((10 : Rat) ^ fp.length))
      else
        none
    | _ => none
  match s.data with
  | '-' :: rest => (parse rest).map (fun q => -q)
  | '+' :: rest => parse rest
  | l => parse l

/-- `value.replace(" ", "") if isinstance(value, str) and " " in value`. -/
def stripSpacesIfStr : PyVal → PyVal
  | .str s =>
    if s.data.contains ' ' then .str (String.mk (s.data.filter (fun c => c ≠ ' ')))
    else .str s
  | v => v

/-- Python `int(value)` on a `PyVal`: parses strings, keeps ints,
truncates floats, and raises `TypeError` on `None` / `datetime`. -/
def pyIntOf : PyVal → Except PyError Int
  | .str s =>
    match parseIntStr s with
    | some n => .ok n
    | none => .error (.valueError "invalid literal for int")
  | .int n => .ok n
  | .float q => .ok (q.num / (q.den : Int))
  | .datetime _ => .error (.typeError "int() argument must not be datetime")
  | .pynone => .error (.typeError "int() argument must not be None")

/-- Python `float(value)` on a `PyVal`. -/
def pyFloatOf : PyVal → Except PyError Rat
  | .str s =>
    match parseDecimalStr s with
    | some q => .ok q
    | none => .error (.valueError "could not convert string to float")
  | .int n => .ok (n : Rat)
  | .float q => .ok q
  | .datetime _ => .error (.typeError "float() argument must not be datetime")
  | .pynone => .error (.typeError "float() argument must not be None")

/-- `_spaced_int` from `national_grid_gas.py`. -/
def spacedInt (v : PyVal) : Except PyError Int :=
  pyIntOf (stripSpacesIfStr v)

/-- `_spaced_float` from `national_grid_gas.py`. -/
def spacedFloat (v : PyVal) : Except PyError Rat :=
  pyFloatOf (stripSpacesIfStr v)

/-- `_spaced_optional_int`: `None` passes through, anything else is
converted with `_spaced_int`. -/
def spacedOptionalInt : PyVal → Except PyError (Option Int)
  | .pynone => .ok none
  | v => (spacedInt v).map some

/-- `_spaced_optional_float`. -/
def spacedOptionalFloat : PyVal → Except PyError (Option Rat)
  | .pynone => .ok none
  | v => (spacedFloat v).map some

/-- Month number of a `%b` abbreviation. -/
def monthOfAbbrev : String → Option Int
  | "Jan" => some 1
  | "Feb" => some 2
  | "Mar" => some 3
  | "Apr" => some 4
  | "May" => some 5
  | "Jun" => some 6
  | "Jul" => some 7
  | "Aug" => some 8
  | "Sep" => some 9
  | "Oct" => some 10
  | "Nov" => some 11
  | "Dec" => some 12
  | _ => none

/-- `datetime.strptime(x, "%m/%d/%Y").date()` on the numeric forms the
water bill produces. -/
def parseDateMDY (s : String) : Option CivilDate :=
  match s.data.splitOn '/' with
  | [mp, dp, yp] =>
    match digitsVal mp, digitsVal dp, digitsVal yp with
    | some m, some d, some y =>
      if 1 ≤ m ∧ m ≤ 12 ∧ 1 ≤ d ∧ d ≤ 31 then
        some ⟨(y : Int), (m : Int), (d : Int)⟩
      else
        none
    | _, _, _ => none
  | _ => none

/-- The date lambda of the gas bill fields:
`strptime(x, "%b %d, %Y")` when a comma is present, else
`strptime(x, "%b %d %Y")`, then `.date()`. -/
def parseDateGas (s : String) : Option CivilDate :=
  let withComma := s.data.contains ','
  match s.data.splitOn ' ' with
  | [mon, dayTok, yearTok] =>
    let dayChars :=
      if withComma then
        if dayTok.getLast? = some ',' then some dayTok.dropLast else none
      else
        some dayTok
    match monthOfAbbrev (String.mk mon), dayChars with
    | some m, some dc =>
      match digitsVal dc, digitsVal yearTok with
      | some d, some y =>
        if 1 ≤ (d : Int) ∧ (d : Int) ≤ 31 then some ⟨(y : Int), m, (d : Int)⟩ else none
      | _, _ => none
    | _, _ => none
  | _ => none

/-- The `read_date` converter of `WaterBill`: `strptime` accepts only a
string argument and raises `TypeError` on anything else (in particular on
the `datetime(1970, 1, 1)` default object). -/
def waterDateConv : PyVal → Except PyError CivilDate
  | .str s =>
    match parseDateMDY s with
    | some d => .ok d
    | none => .error (.valueError "time data does not match format")
  | _ => .error (.typeError "strptime() argument 1 must be str")

/-- The `current_date` / `previous_date` converter of `GasBill`. -/
def gasDateConv : PyVal → Except PyError CivilDate
  | .str s =>
    match parseDateGas s with
    | some d => .ok d
    | none => .error (.valueError "time data does not match format")
  | _ => .error (.typeError "strptime() argument 1 must be str")

/-- One dataclass field assignment in `__init__`:
`ConversionDescriptor.__set__` applies the converter to whatever value the
generated `__init__` assigns — the supplied raw value when the field was
passed, otherwise the descriptor's declared default object itself
(`dataclass_converters.py`, lines 32-35). -/
def assignField {α : Type} (conv : PyVal → Except PyError α) (default : PyVal)
    (supplied : Option PyVal) : Except PyError α :=
  conv (supplied.getD default)

/-- Keyword lookup in the extracted field mapping. -/
def valLookup (vals : List (String × PyVal)) (k : String) : Option PyVal :=
  (vals.find? (fun kv => kv.1 = k)).map (fun kv => kv.2)

/-- `WaterBill(**values)`: the generated `__init__` assigns every field,
triggering each `ConversionDescriptor.__set__`, field by field in
declaration order.  `usage_type` has no descriptor and no default, so it
must be supplied. -/
def waterFromValues (vals : List (String × PyVal)) : Except PyError WaterBill := do
  let usage_type ←
    match valLookup vals "usage_type" with
    | some (.str s) => Except.ok s
    | some _ => Except.error (.typeError "usage_type must be str")
    | none => Except.error (.typeError "missing required argument usage_type")
  let read_date ←
    assignField waterDateConv (.datetime ⟨1970, 1, 1⟩) (valLookup vals "read_date")
  let current_meter_reading ← assignField pyIntOf (.int 0) (valLookup vals "current_meter_reading")
  let usage ← assignField pyIntOf (.int 0) (valLookup vals "usage")
  let water_charge ← assignField pyFloatOf (.int 0) (valLookup vals "water_charge")
  let sewer_charge ← assignField pyFloatOf (.int 0) (valLookup vals "sewer_charge")
  let past_due ← assignField pyFloatOf (.int 0) (valLookup vals "past_due")
  let interest ← assignField pyFloatOf (.int 0) (valLookup vals "interest")
  let adjustments ← assignField pyFloatOf (.int 0) (valLookup vals "adjustments")
  let total ← assignField pyFloatOf (.int 0) (valLookup vals "total")
  Except.ok ⟨usage_type, read_date, current_meter_reading, usage, water_charge,
    sewer_charge, past_due, interest, adjustments, total⟩

/-- A PDF document as the reader library sees it: its per-page texts and
whether it is encrypted. -/
structure PdfDoc where
  pages : List String
  encrypted : Bool

/-- `read_pdf` (`_common/readers.py`): refuse an encrypted file without a
password, otherwise return one string, all pages joined by a blank line. -/
def read_pdf (doc : PdfDoc) (password : Option String) : Except PyError String :=
  if doc.encrypted then
    match password with
    | none => .error (.runtimeError "Cannot read an encrypted document without a password")
    | some _ => .ok (String.intercalate "\n\n" doc.pages)
  else
    .ok (String.intercalate "\n\n" doc.pages)

/-- Python tuple unpacking `a, b = s` of a string: succeeds only when the
string has exactly two characters, otherwise raises `ValueError`. -/
def pyUnpack2 (s : String) : Except PyError (String × String) :=
  match s.data with
  | [a, b] => .ok (String.mk [a], String.mk [b])
  | _ => .error (.valueError "values to unpack (expected 2)")

/-- The first statement of `Bill.extract_fields` (`_common/bill.py`, line
76): `text, reader = read_pdf(file, password)` — but `read_pdf` returns a
single `str`, so the assignment unpacks the string itself.  Everything
after this statement runs on the unpacked pair. -/
def billExtractFieldsUnpack (doc : PdfDoc) (password : Option String) :
    Except PyError (String × String) := do
  let t ← read_pdf doc password
  pyUnpack2 t

/-- The attribute names declared on `GasBill` (fields, class variables and
methods of its class body) together with those inherited from `Bill`. -/
def gasClassAttrs : List String :=
  [ "current_method", "previous_method", "days_since_last_reading",
    "current_date", "current_meter_reading", "previous_date",
    "previous_meter_reading", "measured_therms", "thermal_factor",
    "total_therms", "delivery_min_rate_usd", "delivery_min_charge_usd",
    "delivery_first_tier_rate_usd", "delivery_off_peak_rate_usd",
    "delivery_distribution_adjustment_rate_usd", "delivery_total_usd",
    "supply_rate_usd", "supply_total_usd", "paperless_bill_credit_usd",
    "total_usd", "_old_patterns", "_current_patterns", "_header",
    "_patterns", "__post_init__", "validate", "to_row", "pick_patterns",
    "to_header", "extract_fields" ]

/-- The attribute names declared on `WaterBill` together with those
inherited from `Bill`. -/
def waterClassAttrs : List String :=
  [ "usage_type", "read_date", "current_meter_reading", "usage",
    "water_charge", "sewer_charge", "past_due", "interest", "adjustments",
    "total", "_patterns", "_header", "validate", "to_row", "pick_patterns",
    "to_header", "extract_fields" ]

/-- Python attribute access `getattr(obj, name)` against a class's
declared attribute names: `AttributeError` when the name is not defined. -/
def pyGetattr (attrs : List String) (name : String) : Except PyError String :=
  if attrs.contains name then .ok name else .error (.attributeError name)

/-- The sort key `lambda b: b.date` applied by the batch command
(`cli.py`, line 101) to a `GasBill`. -/
def cliSortKeyGas : Except PyError String :=
  pyGetattr gasClassAttrs "date"

/-- The sort key `lambda b: b.date` applied to a `WaterBill`. -/
def cliSortKeyWater : Except PyError String :=
  pyGetattr waterClassAttrs "date"

/-- The raw extracted mapping of the reference water bill
(`tests_data/municipal-water-sewer.pdf`, see the example text in
`water_and_sewer.py` and the test expectations). -/
def waterRawFixture : List (String × PyVal) :=
  [ ("read_date", .str "11/25/2023"),
    ("current_meter_reading", .str "743"),
    ("usage_type", .str "Actual"),
    ("usage", .str "1"),
    ("water_charge", .str "2.70"),
    ("sewer_charge", .str "7.33"),
    ("past_due", .str "0.00"),
    ("interest", .str "0.00"),
    ("adjustments", .str "0.00"),
    ("total", .str "10.03") ]

/-- The same mapping with the date field omitted. -/
def waterRawFixtureNoDate : List (String × PyVal) :=
  [ ("current_meter_reading", .str "743"),
    ("usage_type", .str "Actual"),
    ("usage", .str "1"),
    ("water_charge", .str "2.70"),
    ("sewer_charge", .str "7.33"),
    ("past_due", .str "0.00"),
    ("interest", .str "0.00"),
    ("adjustments", .str "0.00"),
    ("total", .str "10.03") ]

/-- The converted reference water bill record. -/
def waterFixtureBill : WaterBill :=
  ⟨"Actual", ⟨2023, 11, 25⟩, 743, 1, 27/10, 733/100, 0, 0, 0, 1003/100⟩

/-- The reference water bill with distinct interest and adjustments
charges, exposing which of the two each row position holds. -/
def waterSwapBill : WaterBill :=
  { waterFixtureBill with interest := 1, adjustments := 2 }

/-- The converted reference gas bill record (`tests_data/gas-old.pdf`
expectations in `test_national_grid_gas.py`). -/
def gasOldBill : GasBill :=
  { current_method := "ACTUAL"
    previous_method := "ACTUAL"
    days_since_last_reading := 31
    current_date := ⟨2024, 4, 19⟩
    current_meter_reading := 1805
    previous_date := ⟨2024, 3, 19⟩
    previous_meter_reading := 1761
    measured_therms := none
    thermal_factor := 10303/10000
    total_therms := 45
    delivery_min_rate_usd := some (4/10)
    delivery_min_charge_usd := none
    delivery_first_tier_rate_usd := some (9537/10000)
    delivery_off_peak_rate_usd := none
    delivery_distribution_adjustment_rate_usd := 4574/10000
    delivery_total_usd := 759/10
    supply_rate_usd := 8122/10000
    supply_total_usd := 3655/100
    paperless_bill_credit_usd := -(38/100)
    total_usd := 11207/100 }

/-- A gas bill whose first-tier rate was never captured (it keeps its
`None` default) and whose dates do not add up: the spec's date-difference
scenario (2024-07-20 minus 2024-06-20 is 30 days, not 32). -/
def gasNoTierDatesBadBill : GasBill :=
  { gasOldBill with
    delivery_first_tier_rate_usd := none
    current_date := ⟨2024, 7, 20⟩
    previous_date := ⟨2024, 6, 20⟩
    days_since_last_reading := 32 }

/-- The reference gas bill with only the first-tier rate reset to its
`None` default (dates and therms checks still pass). -/
def gasNoTierBill : GasBill :=
  { gasOldBill with delivery_first_tier_rate_usd := none }

/-- An unencrypted one-page document; its joined text clearly has more
than two characters. -/
def sampleGasDoc : PdfDoc :=
  ⟨["TOTAL CURRENT CHARGES    $13.59"], false⟩

/-- A concrete pattern for exercising the extraction loop: matches the
text `ab` capturing `x`, matches nothing else. -/
def demoPattern : BillPattern :=
  ⟨"P1", fun t => if t = "ab" then some [("x", some "1")] else none⟩

/-- Decidable equality for `Except`, so concrete outcomes can be checked
by `decide`. -/
instance {ε α : Type} [DecidableEq ε] [DecidableEq α] : DecidableEq (Except ε α) := fun a b =>
  match a, b with
  | .ok x, .ok y =>
    if h : x = y then .isTrue (by rw [h]) else .isFalse (by intro hc; cases hc; exact h rfl)
  | .error x, .error y =>
    if h : x = y then .isTrue (by rw [h]) else .isFalse (by intro hc; cases hc; exact h rfl)
  | .ok _, .error _ => .isFalse (by intro hc; cases hc)
  | .error _, .ok _ => .isFalse (by intro hc; cases hc)

theorem dictLookup_insert (d : GroupDict) (k : String) (v : Option String)
    (n : String) :
    dictLookup (dictInsert d k v) n = if k = n then some v else dictLookup d n := by
  induction d with
  | nil => simp [dictInsert, dictLookup]
  | cons kv rest ih =>
    obtain ⟨k₀, v₀⟩ := kv
    by_cases h₀ : k₀ = k
    · subst h₀
      by_cases hn : k₀ = n <;> simp [dictInsert, dictLookup, hn]
    · by_cases hn : k₀ = n
      · subst hn
        have : ¬ k = k₀ := fun hc => h₀ hc.symm
        simp [dictInsert, dictLookup, h₀, this]
      · simp [dictInsert, dictLookup, h₀, hn, ih]

theorem dictLookup_update (gd : GroupDict) (d : GroupDict) (n : String) :
    dictLookup (dictUpdate d gd) n
      = (lastLookup gd n).orElse (fun _ => dictLookup d n) := by
  induction gd generalizing d with
  | nil => simp [dictUpdate, lastLookup, Option.orElse]
  | cons kv rest ih =>
    obtain ⟨k, v⟩ := kv
    have step : dictUpdate d ((k, v) :: rest) = dictUpdate (dictInsert d k v) rest := by
      simp [dictUpdate]
    rw [step, ih, lastLookup]
    cases hrest : lastLookup rest n with
    | some r => simp [Option.orElse]
    | none =>
      simp only [Option.orElse]
      by_cases hk : k = n <;> simp [dictLookup_insert, hk]

theorem runPatterns_all_match (text : String) (ps : List BillPattern)
    (h : ∀ p ∈ ps, (p.search text).isSome) (acc : GroupDict) :
    runPatterns text ps acc = .ok (ps.foldl (mergeStep text) acc) := by
  induction ps generalizing acc with
  | nil => rfl
  | cons p rest ih =>
    obtain ⟨gd, hgd⟩ := Option.isSome_iff_exists.mp (h p (List.mem_cons_self p rest))
    have hrest : ∀ q ∈ rest, (q.search text).isSome :=
      fun q hq => h q (List.mem_cons_of_mem p hq)
    simp [runPatterns, hgd, List.foldl, mergeStep, ih hrest]

theorem foldl_merge_lookup (text : String) (ps : List BillPattern)
    (h : ∀ p ∈ ps, (p.search text).isSome) (acc : GroupDict) (n : String) :
    dictLookup (ps.foldl (mergeStep text) acc) n
      = (lastWrite text ps n).orElse (fun _ => dictLookup acc n) := by
  induction ps generalizing acc with
  | nil => simp [lastWrite, Option.orElse]
  | cons p rest ih =>
    obtain ⟨gd, hgd⟩ := Option.isSome_iff_exists.mp (h p (List.mem_cons_self p rest))
    have hrest : ∀ q ∈ rest, (q.search text).isSome :=
      fun q hq => h q (List.mem_cons_of_mem p hq)
    have step : (p :: rest).foldl (mergeStep text) acc
        = rest.foldl (mergeStep text) (dictUpdate acc gd) := by
      simp [List.foldl, mergeStep, hgd]
    rw [step, ih hrest, lastWrite, hgd]
    cases hr : lastWrite text rest n with
    | some r => simp [Option.orElse]
    | none =>
      simp only [Option.orElse, Option.bind]
      rw [dictLookup_update]
      cases hg : lastLookup gd n <;> simp [Option.orElse]

theorem runPatterns_first_fail (text : String) (ps : List BillPattern)
    (h : ∃ p ∈ ps, p.search text = none) (acc : GroupDict) :
    ∃ q ∈ ps, q.search text = none
      ∧ runPatterns text ps acc = .error (.patternMismatch q.source text) := by
  induction ps generalizing acc with
  | nil => obtain ⟨p, hp, _⟩ := h; cases hp
  | cons p rest ih =>
    cases hp : p.search text with
    | none =>
      exact ⟨p, List.mem_cons_self p rest, hp, by simp [runPatterns, hp]⟩
    | some gd =>
      have hrest : ∃ q ∈ rest, q.search text = none := by
        obtain ⟨q, hq, hqn⟩ := h
        rcases List.mem_cons.mp hq with rfl | hq₂
        · rw [hp] at hqn; cases hqn
        · exact ⟨q, hq₂, hqn⟩
      obtain ⟨q, hq, hqn, hrun⟩ := ih hrest (dictUpdate acc gd)
      exact ⟨q, List.mem_cons_of_mem p hq, hqn, by simp [runPatterns, hp, hrun]⟩

/-- Claim C5: for every document text and every active ordered pattern
sequence, the extraction step raises an error that names the non-matching
pattern and contains the full searched text whenever some pattern has no
match; if every pattern matches but the merged named-capture mapping is
empty, it raises a generic cannot-parse error containing the text; in all
other cases no extraction error is raised and the result is the union of
every pattern's named captures with last-write-wins merge on colliding
names. -/
theorem extraction_loop_errors_and_merge :
    (∀ (text : String) (ps : List BillPattern),
      (∃ p ∈ ps, p.search text = none) →
      ∃ q ∈ ps, q.search text = none
        ∧ extractLoop text ps = .error (.patternMismatch q.source text))
    ∧ (∀ (text : String) (ps : List BillPattern),
      (∀ p ∈ ps, (p.search text).isSome) → mergedCaptures text ps = [] →
      extractLoop text ps = .error (.cannotParse text))
    ∧ (∀ (text : String) (ps : List BillPattern),
      (∀ p ∈ ps, (p.search text).isSome) → mergedCaptures text ps ≠ [] →
      extractLoop text ps = .ok (mergedCaptures text ps)
        ∧ ∀ n, dictLookup (mergedCaptures text ps) n = lastWrite text ps n) := by
  refine ⟨?_, ?_, ?_⟩
  · intro text ps h
    obtain ⟨q, hq, hqn, hrun⟩ := runPatterns_first_fail text ps h []
    exact ⟨q, hq, hqn, by simp [extractLoop, hrun]⟩
  · intro text ps h hempty
    have hrun := runPatterns_all_match text ps h []
    have hm : ps.foldl (mergeStep text) [] = [] := hempty
    rw [hm] at hrun
    simp [extractLoop, hrun]
  · intro text ps h hne
    have hrun := runPatterns_all_match text ps h []
    have hlen : (mergedCaptures text ps).length ≠ 0 := by
      intro hc
      exact hne (List.length_eq_zero.mp hc)
    constructor
    · have hne2 : ¬ (List.foldl (mergeStep text) [] ps = []) := hne
      simp [extractLoop, hrun, hne2, mergedCaptures]
    · intro n
      have hl := foldl_merge_lookup text ps h [] n
      rw [mergedCaptures, hl]
      cases hw : lastWrite text ps n <;> simp [Option.orElse, dictLookup]

/-- Witness for C5: the loop on a one-pattern sequence, at a text the
pattern misses and at a text it matches. -/
theorem extraction_loop_errors_and_merge_witness :
    extractLoop "zz" [demoPattern] = .error (.patternMismatch "P1" "zz")
    ∧ extractLoop "ab" [demoPattern] = .ok [("x", some "1")] := by
  constructor
  · obtain ⟨q, hq, hqn, hrun⟩ := extraction_loop_errors_and_merge.1 "zz" [demoPattern]
      ⟨demoPattern, by simp, by decide⟩
    have hq2 : q = demoPattern := by simpa using hq
    subst hq2
    simpa using hrun
  · exact (extraction_loop_errors_and_merge.2.2 "ab" [demoPattern]
      (by
        intro p hp
        rw [List.mem_singleton] at hp
        subst hp
        decide)
      (by decide)).1


theorem roundHalfEven_eval_lt (q : Rat) (n : Int) (h1 : (n : Rat) ≤ q)
    (h2 : q < (n : Rat) + 1/2) : roundHalfEven q = n := by
  have hf : ⌊q⌋ = n := Int.floor_eq_iff.mpr ⟨h1, by linarith⟩
  have hr : q - (n : Rat) < 1/2 := by linarith
  simp only [roundHalfEven, hf]
  rw [if_pos hr]

theorem roundHalfEven_eval_gt (q : Rat) (n : Int) (h1 : (n : Rat) + 1/2 < q)
    (h2 : q < (n : Rat) + 1) : roundHalfEven q = n + 1 := by
  have hf : ⌊q⌋ = n := Int.floor_eq_iff.mpr ⟨by linarith, h2⟩
  have hlt : ¬ (q - (n : Rat) < 1/2) := by push_neg; linarith
  have hgt : 1/2 < q - (n : Rat) := by linarith
  simp only [roundHalfEven, hf]
  rw [if_neg hlt, if_pos hgt]

theorem round2_eval_lt (q : Rat) (n : Int) (h1 : (n : Rat) ≤ q * 100)
    (h2 : q * 100 < (n : Rat) + 1/2) : round2 q = (n : Rat) / 100 := by
  rw [round2, roundHalfEven_eval_lt (q * 100) n h1 h2]

theorem round2_eval_gt (q : Rat) (n : Int) (h1 : (n : Rat) + 1/2 < q * 100)
    (h2 : q * 100 < (n : Rat) + 1) : round2 q = ((n : Rat) + 1) / 100 := by
  rw [round2, roundHalfEven_eval_gt (q * 100) n h1 h2]
  push_cast
  ring

theorem gasValidate_ok_of_checks (b : GasBill) (minr ftr : Rat)
    (h1 : dateSubDays b.current_date b.previous_date = b.days_since_last_reading)
    (h2 : roundHalfEven (((b.current_meter_reading - b.previous_meter_reading : Int) : Rat)
        * b.thermal_factor) = b.total_therms)
    (hm : b.delivery_min_rate_usd = some minr)
    (hf : b.delivery_first_tier_rate_usd = some ftr)
    (h3 : round2 ((b.days_since_last_reading : Rat) * minr
        + (b.total_therms : Rat) * (ftr + b.delivery_distribution_adjustment_rate_usd))
      = b.delivery_total_usd)
    (h4 : round2 (b.delivery_total_usd + b.supply_total_usd + b.paperless_bill_credit_usd)
      = b.total_usd) :
    gasValidate b = .ok () := by
  simp only [gasValidate, hm, hf]
  rw [if_neg (not_not_intro h1), if_neg (not_not_intro h2), if_neg (not_not_intro h3),
    if_neg (not_not_intro h4)]

/-- Claim C3: gas validation accepts the meter-reading relationship
exactly when round-half-to-even((current − previous) × thermal_factor)
equals total_therms (the therms-mismatch ValueError is raised iff the
dates check passed and that equality fails), and for the reference
fixture (1805, 1761, 1.0303, 45) the check passes, as does the whole
validation of the reference gas bill. -/
theorem gas_therms_check :
    (∀ b : GasBill, isThermsErr (gasValidate b) = true
      ↔ (gasDatesOk b = true
          ∧ roundHalfEven (((b.current_meter_reading - b.previous_meter_reading : Int) : Rat)
              * b.thermal_factor) ≠ b.total_therms))
    ∧ roundHalfEven (((1805 - 1761 : Int) : Rat) * (10303/10000)) = 45
    ∧ gasValidate gasOldBill = .ok () := by
  refine ⟨?_, ?_, ?_⟩
  · intro b
    by_cases h1 : dateSubDays b.current_date b.previous_date = b.days_since_last_reading
    · have hd : gasDatesOk b = true := by simp [gasDatesOk, h1]
      by_cases h2 : roundHalfEven (((b.current_meter_reading - b.previous_meter_reading : Int)
          : Rat) * b.thermal_factor) = b.total_therms
      · cases hm : b.delivery_min_rate_usd with
        | none =>
          simp only [gasValidate, hm]
          rw [if_neg (not_not_intro h1), if_neg (not_not_intro h2)]
          push_cast at h2
          simp [isThermsErr]
          intro _
          exact h2
        | some minr =>
          cases hf : b.delivery_first_tier_rate_usd with
          | none =>
            simp only [gasValidate, hm, hf]
            rw [if_neg (not_not_intro h1), if_neg (not_not_intro h2)]
            push_cast at h2
            simp [isThermsErr]
            intro _
            exact h2
          | some ftr =>
            simp only [gasValidate, hm, hf]
            rw [if_neg (not_not_intro h1), if_neg (not_not_intro h2)]
            push_cast at h2
            by_cases h3 : round2 ((b.days_since_last_reading : Rat) * minr
                + (b.total_therms : Rat)
                  * (ftr + b.delivery_distribution_adjustment_rate_usd)) = b.delivery_total_usd
            · rw [if_neg (not_not_intro h3)]
              by_cases h4 : round2 (b.delivery_total_usd + b.supply_total_usd
                  + b.paperless_bill_credit_usd) = b.total_usd
              · rw [if_neg (not_not_intro h4)]
                simp [isThermsErr]
                intro _
                exact h2
              · rw [if_pos h4]
                simp [isThermsErr]
                intro _
                exact h2
            · rw [if_pos h3]
              simp [isThermsErr]
              intro _
              exact h2
      · simp only [gasValidate]
        rw [if_neg (not_not_intro h1), if_pos h2]
        push_cast at h2
        simp [isThermsErr, hd, h2]
    · have hd : gasDatesOk b = false := by simp [gasDatesOk, h1]
      simp only [gasValidate]
      rw [if_pos h1]
      simp [isThermsErr, hd]
  · exact roundHalfEven_eval_lt _ 45 (by push_cast; norm_num) (by push_cast; norm_num)
  · refine gasValidate_ok_of_checks gasOldBill (4/10) (9537/10000) (by decide) ?_ rfl rfl ?_ ?_
    · exact roundHalfEven_eval_lt _ 45 (by push_cast; norm_num [gasOldBill])
        (by push_cast; norm_num [gasOldBill])
    · refine (round2_eval_gt _ 7589 ?_ ?_).trans ?_
      · show ((7589 : Int) : Rat) + 1/2
          < (((31 : Int) : Rat) * (4/10)
              + ((45 : Int) : Rat) * (9537/10000 + 4574/10000)) * 100
        push_cast
        norm_num
      · show (((31 : Int) : Rat) * (4/10)
            + ((45 : Int) : Rat) * (9537/10000 + 4574/10000)) * 100
          < ((7589 : Int) : Rat) + 1
        push_cast
        norm_num
      · show (((7589 : Int) : Rat) + 1) / 100 = gasOldBill.delivery_total_usd
        show (((7589 : Int) : Rat) + 1) / 100 = 759/10
        push_cast
        norm_num
    · refine (round2_eval_lt _ 11207 ?_ ?_).trans ?_
      · show ((11207 : Int) : Rat) ≤ ((759/10 : Rat) + 3655/100 + -(38/100)) * 100
        push_cast
        norm_num
      · show ((759/10 : Rat) + 3655/100 + -(38/100)) * 100 < ((11207 : Int) : Rat) + 1/2
        push_cast
        norm_num
      · show ((11207 : Int) : Rat) / 100 = (11207 : Rat)/100
        push_cast
        norm_num

theorem waterValidate_error_of_ne (w : WaterBill)
    (h : w.total
      ≠ round2 (w.water_charge + w.sewer_charge + w.past_due + w.interest + w.adjustments)) :
    isWaterErr (waterValidate w) = true := by
  simp only [waterValidate]
  rw [if_pos h]
  rfl

theorem waterValidate_ok_of_eq (w : WaterBill)
    (h : w.total
      = round2 (w.water_charge + w.sewer_charge + w.past_due + w.interest + w.adjustments)) :
    waterValidate w = .ok () := by
  simp only [waterValidate]
  rw [if_neg (not_not_intro h)]

/-- Claim C6: water validation raises its descriptive ValueError iff
round(water + sewer + past_due + interest + adjustments, 2) differs from
the total; the consistently extracted reference record passes, and the
same record with its total overwritten to −100 raises. -/
theorem water_total_check :
    (∀ w : WaterBill, isWaterErr (waterValidate w) = true
      ↔ round2 (w.water_charge + w.sewer_charge + w.past_due + w.interest + w.adjustments)
          ≠ w.total)
    ∧ isWaterErr (waterValidate { waterFixtureBill with total := -100 }) = true
    ∧ waterValidate waterFixtureBill = .ok () := by
  have hsum : round2 ((27/10 : Rat) + 733/100 + 0 + 0 + 0) = 1003/100 := by
    refine (round2_eval_lt _ 1003 ?_ ?_).trans ?_
    · push_cast
      norm_num
    · push_cast
      norm_num
    · push_cast
      norm_num
  refine ⟨?_, ?_, ?_⟩
  · intro w
    by_cases h : w.total
        = round2 (w.water_charge + w.sewer_charge + w.past_due + w.interest + w.adjustments)
    · simp only [waterValidate]
      rw [if_neg (not_not_intro h)]
      simp [isWaterErr, h.symm]
    · simp only [waterValidate]
      rw [if_pos h]
      simp only [isWaterErr]
      exact iff_of_true trivial (fun hc => h hc.symm)
  · refine waterValidate_error_of_ne _ ?_
    show (-100 : Rat) ≠ round2 ((27/10 : Rat) + 733/100 + 0 + 0 + 0)
    rw [hsum]
    norm_num
  · refine waterValidate_ok_of_eq _ ?_
    show (1003/100 : Rat) = round2 ((27/10 : Rat) + 733/100 + 0 + 0 + 0)
    rw [hsum]

/-- Claim C4: after construction, a zero (or absent, hence zero-converted)
supply total is replaced by round(total_therms × supply_rate, 2), and a
non-zero supplied value is kept unchanged. -/
theorem gas_supply_total_derived :
    (∀ b : GasBill, b.supply_total_usd = 0 →
      (gasPostInit b).supply_total_usd = round2 ((b.total_therms : Rat) * b.supply_rate_usd))
    ∧ (∀ b : GasBill, b.supply_total_usd ≠ 0 →
      (gasPostInit b).supply_total_usd = b.supply_total_usd) := by
  constructor
  · intro b h
    simp [gasPostInit, h]
  · intro b h
    simp [gasPostInit, h]

/-- Witness for C4: the reference gas bill with its supply total zeroed
gets the derived round(45 × 0.8122, 2) = 36.55, and with its printed
36.55 keeps it. -/
theorem gas_supply_total_derived_witness :
    (gasPostInit { gasOldBill with supply_total_usd := 0 }).supply_total_usd
      = round2 ((45 : Rat) * (8122/10000))
    ∧ (gasPostInit gasOldBill).supply_total_usd = 3655/100 := by
  constructor
  · have h := gas_supply_total_derived.1 { gasOldBill with supply_total_usd := 0 } rfl
    refine h.trans ?_
    congr 1
  · have hne : gasOldBill.supply_total_usd ≠ 0 := by
      show (3655/100 : Rat) ≠ 0
      norm_num
    have h := gas_supply_total_derived.2 gasOldBill hne
    rw [h]
    rfl

/-- Counterexample to C9 as stated: a gas bill whose first-tier rate kept
its None default but whose dates also mismatch gets the descriptive
dates ValueError from the earlier check, not a type error. -/
theorem gas_none_tier_raises_valueerror :
    gasNoTierDatesBadBill.delivery_first_tier_rate_usd = none
    ∧ isTypeErr (gasValidate gasNoTierDatesBadBill) = false
    ∧ isGasValueErr (gasValidate gasNoTierDatesBadBill) = true := by
  refine ⟨rfl, ?_, ?_⟩ <;> decide

/-- Claim C9 (amended): validate raises only the documented descriptive
ValueError whenever both optional delivery rates are numbers; and when the
first-tier rate kept its None default while the earlier date and therms
checks pass, validate fails with the type error from None arithmetic
rather than a descriptive validation error. -/
theorem gas_typeerror_condition :
    (∀ b : GasBill, b.delivery_min_rate_usd ≠ none →
      b.delivery_first_tier_rate_usd ≠ none → isTypeErr (gasValidate b) = false)
    ∧ (∀ b : GasBill, b.delivery_first_tier_rate_usd = none →
      gasDatesOk b = true → gasThermsOk b = true → isTypeErr (gasValidate b) = true) := by
  constructor
  · intro b hm hf
    obtain ⟨minr, hmr⟩ := Option.ne_none_iff_exists'.mp hm
    obtain ⟨ftr, hfr⟩ := Option.ne_none_iff_exists'.mp hf
    by_cases h1 : dateSubDays b.current_date b.previous_date = b.days_since_last_reading
    · by_cases h2 : roundHalfEven (((b.current_meter_reading - b.previous_meter_reading : Int)
          : Rat) * b.thermal_factor) = b.total_therms
      · simp only [gasValidate, hmr, hfr]
        rw [if_neg (not_not_intro h1), if_neg (not_not_intro h2)]
        by_cases h3 : round2 ((b.days_since_last_reading : Rat) * minr
            + (b.total_therms : Rat)
              * (ftr + b.delivery_distribution_adjustment_rate_usd)) = b.delivery_total_usd
        · rw [if_neg (not_not_intro h3)]
          by_cases h4 : round2 (b.delivery_total_usd + b.supply_total_usd
              + b.paperless_bill_credit_usd) = b.total_usd
          · rw [if_neg (not_not_intro h4)]
            rfl
          · rw [if_pos h4]
            rfl
        · rw [if_pos h3]
          rfl
      · simp only [gasValidate]
        rw [if_neg (not_not_intro h1), if_pos h2]
        rfl
    · simp only [gasValidate]
      rw [if_pos h1]
      rfl
  · intro b hf h1 h2
    have h1b : dateSubDays b.current_date b.previous_date = b.days_since_last_reading := by
      simpa [gasDatesOk] using h1
    have h2b : roundHalfEven (((b.current_meter_reading - b.previous_meter_reading : Int)
        : Rat) * b.thermal_factor) = b.total_therms := by
      simpa [gasThermsOk] using h2
    cases hm : b.delivery_min_rate_usd with
    | none =>
      simp only [gasValidate, hm]
      rw [if_neg (not_not_intro h1b), if_neg (not_not_intro h2b)]
      rfl
    | some minr =>
      simp only [gasValidate, hm, hf]
      rw [if_neg (not_not_intro h1b), if_neg (not_not_intro h2b)]
      rfl

/-- Witness for C9 (amended): the reference gas bill (both rates present)
never hits the type error, and the same bill with its first-tier rate
reset to None does. -/
theorem gas_typeerror_condition_witness :
    isTypeErr (gasValidate gasOldBill) = false
    ∧ isTypeErr (gasValidate gasNoTierBill) = true := by
  constructor
  · exact gas_typeerror_condition.1 gasOldBill (by decide) (by decide)
  · refine gas_typeerror_condition.2 gasNoTierBill rfl (by decide) ?_
    have h45 : roundHalfEven (((1805 - 1761 : Int) : Rat) * (10303/10000)) = 45 :=
      roundHalfEven_eval_lt _ 45 (by push_cast; norm_num) (by push_cast; norm_num)
    simp only [gasThermsOk]
    rw [show (((gasNoTierBill.current_meter_reading - gasNoTierBill.previous_meter_reading
        : Int) : Rat) * gasNoTierBill.thermal_factor)
      = ((1805 - 1761 : Int) : Rat) * (10303/10000) from rfl, h45]
    rfl

/-- Claim C1 (code evaluation): the first statement of
Bill.extract_fields unpacks the single string read_pdf returns as a pair,
so for every readable document whose joined text is not exactly two
characters long, extract_fields raises ValueError before any pattern
runs — never a constructed record, and not the claimed RuntimeError. -/
theorem extract_fields_unpacks_read_pdf :
    ∀ (doc : PdfDoc) (password : Option String), doc.encrypted = false →
      (String.intercalate "\n\n" doc.pages).length ≠ 2 →
      billExtractFieldsUnpack doc password
        = .error (.valueError "values to unpack (expected 2)") := by
  intro doc pw henc hlen
  have hread : read_pdf doc pw = .ok (String.intercalate "\n\n" doc.pages) := by
    simp [read_pdf, henc]
  have hbind : billExtractFieldsUnpack doc pw
      = pyUnpack2 (String.intercalate "\n\n" doc.pages) := by
    unfold billExtractFieldsUnpack
    rw [hread]
    rfl
  rw [hbind]
  have hdata : (String.intercalate "\n\n" doc.pages).data.length ≠ 2 := hlen
  rcases hd : (String.intercalate "\n\n" doc.pages).data with _ | ⟨a, _ | ⟨b, _ | ⟨c, t⟩⟩⟩
  · simp [pyUnpack2, hd]
  · simp [pyUnpack2, hd]
  · exfalso
    apply hdata
    rw [hd]
    rfl
  · simp [pyUnpack2, hd]

/-- Witness for C1: a concrete unencrypted one-page document. -/
theorem extract_fields_unpacks_read_pdf_witness :
    billExtractFieldsUnpack sampleGasDoc none
      = .error (.valueError "values to unpack (expected 2)") :=
  extract_fields_unpacks_read_pdf sampleGasDoc none rfl (by decide)

/-- Claim C2 (code evaluation): header and row have equal length, but at
position 7 the header names the adjustments field while the row holds the
interest value — on a record with interest 1 and adjustments 2 the row
value at position 7 is not the value of the field the header names
there. -/
theorem water_header_row_swapped :
    waterHeader.length = (waterToRow waterSwapBill).length
    ∧ waterHeader[7]? = some "adjustments_usd"
    ∧ (waterToRow waterSwapBill)[7]? = some (.float 1)
    ∧ waterFieldForLabel waterSwapBill "adjustments_usd" = some (.float 2) := by
  refine ⟨rfl, rfl, ?_, ?_⟩ <;> rfl

/-- Claim C7 (code evaluation): WaterBill.to_row emits the raw date
object (not a string) in position 0, while GasBill.to_row emits the
ISO-8601 string. -/
theorem water_row_raw_date :
    (waterToRow waterFixtureBill)[0]? = some (.date ⟨2023, 11, 25⟩)
    ∧ Value.isStr (.date ⟨2023, 11, 25⟩) = false
    ∧ (gasToRow gasOldBill)[0]? = some (.str "2024-04-19") := by
  refine ⟨rfl, rfl, ?_⟩
  decide

/-- Claim C8 (code evaluation): the descriptor applies each converter to
the field's declared default when the field is absent, so an absent date
field raises TypeError inside strptime instead of defaulting to the epoch
date; numeric and None defaults do convert and construction with them
succeeds, and with the date present the reference record constructs. -/
theorem date_default_conversion_typeerror :
    waterFromValues waterRawFixtureNoDate
      = .error (.typeError "strptime() argument 1 must be str")
    ∧ assignField gasDateConv (.datetime ⟨1970, 1, 1⟩) Option.none
      = .error (.typeError "strptime() argument 1 must be str")
    ∧ assignField spacedInt (.int 0) Option.none = .ok 0
    ∧ assignField spacedOptionalFloat .pynone Option.none = .ok none
    ∧ (waterFromValues waterRawFixture).map
        (fun w => (w.read_date, w.current_meter_reading))
      = .ok (⟨2023, 11, 25⟩, 743) := by
  exact ⟨rfl, rfl, rfl, rfl, rfl⟩

/-- Claim C10: neither bill class declares an attribute named date, so
the batch sort key of cli.py fails with AttributeError on every record of
either class. -/
theorem no_date_attribute_for_sort :
    gasClassAttrs.contains "date" = false
    ∧ waterClassAttrs.contains "date" = false
    ∧ cliSortKeyGas = .error (.attributeError "date")
    ∧ cliSortKeyWater = .error (.attributeError "date") := by
  refine ⟨?_, ?_, ?_, ?_⟩ <;> decide
